import Mathlib

/-!
Verification of the stream-grant resource of the Snowflake Terraform
provider (`pkg/resources/stream_grant.go`), against its natural-language
specification.

Strings are modelled as `List Char`.  The Go code splits and joins byte
strings, but every delimiter involved (`|`, `,`, and the two-codepoint
sequence U+2744 U+FE0F spelled "❄️" in the source) is a sequence of whole
codepoints, and UTF-8 is self-synchronizing, so byte-level splitting on
these delimiters coincides with codepoint-level splitting for every
well-formed string; the embedding therefore works at the codepoint level.

Functions that are only called from the provided sources but whose own
bodies are not included (`helpers.SplitStringToSlice`, the generic grant
lifecycle helpers, the SQL grant builders and the Terraform host runtime)
are modelled from the spec; each such definition carries a doc comment
beginning "Modelled from the spec:".
-/

namespace StreamGrantSpec

/-- Strings are modelled as lists of codepoints. -/
abbrev Str := List Char

/-- Converts a Lean string literal to the codepoint-list model. -/
def strLit (s : String) : Str := s.data

/-- First codepoint of the multi-byte delimiter `"❄️"`: U+2744. -/
def snowChar : Char := '\u2744'

/-- Second codepoint of the multi-byte delimiter `"❄️"`: U+FE0F
(variation selector 16). -/
def vs16Char : Char := '\uFE0F'

/-- Whether the two-codepoint sequence `[c1, c2]` occurs (contiguously) in
`s`.  Models Go's `strings.Contains(s, "❄️")` for the two-codepoint
delimiter. -/
def contains2 (c1 c2 : Char) : List Char → Bool
  | [] => false
  | a :: rest => (decide (a = c1) && decide (rest.head? = some c2)) || contains2 c1 c2 rest

/-- Splits `s` at each leftmost, non-overlapping occurrence of the
two-codepoint sequence `[c1, c2]`.  Models Go's `strings.Split(s, "❄️")`
for the two-codepoint delimiter: the result always has one more element
than the number of occurrences, and splitting the empty string yields
`[[]]`. -/
def split2 (c1 c2 : Char) : List Char → List (List Char)
  | [] => [[]]
  | [a] => [[a]]
  | a :: b :: rest =>
    if a = c1 ∧ b = c2 then
      [] :: split2 c1 c2 rest
    else
      match split2 c1 c2 (b :: rest) with
      | [] => [[a]]
      | t :: ts => (a :: t) :: ts

/-- Splits `s` at each occurrence of the single character `c`.  Models
Go's `strings.Split(s, d)` for a one-character delimiter `d`: splitting
the empty string yields `[[]]`, i.e. one empty field. -/
def split1 (c : Char) : List Char → List (List Char)
  | [] => [[]]
  | a :: rest =>
    if a = c then
      [] :: split1 c rest
    else
      match split1 c rest with
      | [] => [[a]]
      | t :: ts => (a :: t) :: ts

/-- Joins fields with a separator.  Models Go's `strings.Join(xs, sep)`:
the empty list joins to the empty string and a singleton joins to its
only element. -/
def joinWith (sep : List Char) : List (List Char) → List Char
  | [] => []
  | [x] => x
  | x :: y :: xs => x ++ sep ++ joinWith sep (y :: xs)

/-- Modelled from the spec: `helpers.SplitStringToSlice` is called by
`parseStreamGrantID` but its body is not among the provided sources.  Per
the spec's edge-case policy — "role list segment, when present, is split
on `,`; an empty role-list segment decodes to an empty set (not a single
empty-string role)" — it returns the empty list on the empty string and
otherwise splits on the delimiter. -/
def SplitStringToSlice (s : Str) (delim : Char) : List Str :=
  if s = [] then [] else split1 delim s

/-- The composite grant identifier, from `type StreamGrantID struct`
(stream_grant.go lines 242-249). -/
structure StreamGrantID where
  DatabaseName : Str
  SchemaName : Str
  ObjectName : Str
  Privilege : Str
  Roles : List Str
  WithGrantOption : Bool
  deriving DecidableEq

/-- Constructor `NewStreamGrantID` (stream_grant.go lines 251-260). -/
def NewStreamGrantID (databaseName schemaName objectName privilege : Str)
    (roles : List Str) (withGrantOption : Bool) : StreamGrantID :=
  { DatabaseName := databaseName
    SchemaName := schemaName
    ObjectName := objectName
    Privilege := privilege
    Roles := roles
    WithGrantOption := withGrantOption }

/-- Rendering of a Go `bool` by `fmt.Sprintf("%v", b)`. -/
def goBoolStr : Bool → Str
  | true => strLit "true"
  | false => strLit "false"

/-- The string `"true"`, compared against the with-grant-option segment
by `parseStreamGrantID`. -/
def trueStr : Str := strLit "true"

/-- Encoder, from `func (v *StreamGrantID) String()` (stream_grant.go
lines 262-265): joins database, schema, object, privilege, the rendered
grant-option flag, and the comma-joined role list with the delimiter
`"❄️"`. -/
def StreamGrantID.String (v : StreamGrantID) : Str :=
  joinWith [snowChar, vs16Char]
    [v.DatabaseName, v.SchemaName, v.ObjectName, v.Privilege,
     goBoolStr v.WithGrantOption, joinWith [','] v.Roles]

/-- Failure outcomes of `parseStreamGrantID`.
`malformedIdentifier n` models the error created by
`fmt.Errorf("unexpected number of ID parts (%d), expected 6", len(idParts))`
(stream_grant.go line 282).
`panicIndexOutOfRange` models the Go runtime panic raised by the
unchecked indexing `idParts[1]` … `idParts[4]` on the legacy path
(stream_grant.go lines 270-278) when the pipe-split yields fewer than
five segments: the Go function performs no bounds check there, so this
outcome is a crash of the running process, not a returned error value. -/
inductive ParseErr where
  | malformedIdentifier (parts : Nat)
  | panicIndexOutOfRange
  deriving DecidableEq

/-- Decoder, from `func parseStreamGrantID` (stream_grant.go lines
267-292).  If the multi-byte delimiter is absent the legacy pipe-split
path runs, reading five positional fields with no bounds check (fewer
than five segments is the modelled panic); otherwise the string is split
on the delimiter and exactly six segments are required.  The
with-grant-option segment is compared against `"true"` (`idParts[4] ==
"true"`); the role segment is split by `helpers.SplitStringToSlice`. -/
def parseStreamGrantID (s : Str) : Except ParseErr StreamGrantID :=
  if contains2 snowChar vs16Char s = false then
    let idParts := split1 '|' s
    if idParts.length < 5 then
      Except.error ParseErr.panicIndexOutOfRange
    else
      Except.ok
        { DatabaseName := idParts.getD 0 []
          SchemaName := idParts.getD 1 []
          ObjectName := idParts.getD 2 []
          Privilege := idParts.getD 3 []
          Roles := []
          WithGrantOption := decide (idParts.getD 4 [] = trueStr) }
  else
    let idParts := split2 snowChar vs16Char s
    if idParts.length ≠ 6 then
      Except.error (ParseErr.malformedIdentifier idParts.length)
    else
      Except.ok
        { DatabaseName := idParts.getD 0 []
          SchemaName := idParts.getD 1 []
          ObjectName := idParts.getD 2 []
          Privilege := idParts.getD 3 []
          WithGrantOption := decide (idParts.getD 4 [] = trueStr)
          Roles := SplitStringToSlice (idParts.getD 5 []) ',' }

deriving instance DecidableEq for Except

/-- A string is delimiter-free when the two-codepoint delimiter does not
occur in it. -/
def delimFree (s : Str) : Prop := contains2 snowChar vs16Char s = false

instance (s : Str) : Decidable (delimFree s) := by
  unfold delimFree; infer_instance

/-- Appending the two-codepoint delimiter after any prefix makes
`contains2` true. -/
theorem contains2_append_delim (c1 c2 : Char) :
    ∀ f rest : List Char, contains2 c1 c2 (f ++ c1 :: c2 :: rest) = true := by
  intro f rest
  induction f with
  | nil => simp [contains2]
  | cons x f0 ih => simp [contains2, ih]

/-- Splitting a string of the form `f ++ [c1, c2] ++ rest`, where `f` is
free of the delimiter, peels off `f` as the first field. -/
theorem split2_delim_append (c1 c2 : Char) (hne : c1 ≠ c2) :
    ∀ f rest : List Char, contains2 c1 c2 f = false →
      split2 c1 c2 (f ++ c1 :: c2 :: rest) = f :: split2 c1 c2 rest := by
  intro f
  induction f with
  | nil =>
    intro rest _
    simp [split2]
  | cons x f0 ih =>
    intro rest hc
    simp only [contains2, Bool.or_eq_false_iff, Bool.and_eq_false_iff,
      decide_eq_false_iff_not] at hc
    cases f0 with
    | nil =>
      have h1 : split2 c1 c2 (c1 :: c2 :: rest) = [] :: split2 c1 c2 rest := by
        simp [split2]
      simp only [List.cons_append, List.nil_append]
      rw [split2]
      rw [if_neg (by simp [hne])]
      rw [h1]
    | cons y f1 =>
      have hcf : contains2 c1 c2 (y :: f1) = false := by
        simpa using hc.2
      have h1 := ih rest hcf
      simp only [List.cons_append] at h1 ⊢
      rw [split2]
      rw [if_neg (by
        rcases hc.1 with h | h
        · exact fun hh => h hh.1
        · exact fun hh => h (by simp [hh.2]))]
      rw [h1]

/-- Splitting a delimiter-free string yields a single field. -/
theorem split2_no_delim (c1 c2 : Char) :
    ∀ f : List Char, contains2 c1 c2 f = false → split2 c1 c2 f = [f] := by
  intro f
  induction f with
  | nil => simp [split2]
  | cons x f0 ih =>
    intro hc
    simp only [contains2, Bool.or_eq_false_iff, Bool.and_eq_false_iff,
      decide_eq_false_iff_not] at hc
    cases f0 with
    | nil => simp [split2]
    | cons y f1 =>
      rw [split2]
      rw [if_neg (by
        rcases hc.1 with h | h
        · exact fun hh => h hh.1
        · exact fun hh => h (by simp [hh.2]))]
      rw [ih (by simpa using hc.2)]

/-- Splitting on the delimiter is a left inverse of joining with it, for
delimiter-free fields. -/
theorem split2_joinWith (c1 c2 : Char) (hne : c1 ≠ c2) :
    ∀ fs : List (List Char), fs ≠ [] → (∀ f ∈ fs, contains2 c1 c2 f = false) →
      split2 c1 c2 (joinWith [c1, c2] fs) = fs := by
  intro fs
  induction fs with
  | nil => intro h; exact absurd rfl h
  | cons f fs0 ih =>
    intro _ hall
    cases fs0 with
    | nil =>
      rw [joinWith]
      rw [split2_no_delim c1 c2 f (hall f (by simp))]
    | cons g fs1 =>
      rw [joinWith]
      have : f ++ [c1, c2] ++ joinWith [c1, c2] (g :: fs1)
          = f ++ c1 :: c2 :: joinWith [c1, c2] (g :: fs1) := by
        simp
      rw [this]
      rw [split2_delim_append c1 c2 hne f _ (hall f (by simp))]
      rw [ih (by simp) (fun x hx => hall x (by simp [hx]))]

/-- The join of at least two fields with the delimiter contains the
delimiter. -/
theorem contains2_joinWith_delim (c1 c2 : Char) (f g : List Char)
    (fs : List (List Char)) :
    contains2 c1 c2 (joinWith [c1, c2] (f :: g :: fs)) = true := by
  rw [joinWith]
  have : f ++ [c1, c2] ++ joinWith [c1, c2] (g :: fs)
      = f ++ c1 :: c2 :: joinWith [c1, c2] (g :: fs) := by
    simp
  rw [this]
  exact contains2_append_delim c1 c2 f _

/-- Gluing a delimiter-free string onto a delimiter-free string through a
character that is not the delimiter's second codepoint stays
delimiter-free. -/
theorem contains2_append_mid (c1 c2 d : Char) :
    ∀ f t : List Char, contains2 c1 c2 f = false →
      contains2 c1 c2 (d :: t) = false → d ≠ c2 →
      contains2 c1 c2 (f ++ d :: t) = false := by
  intro f
  induction f with
  | nil => intro t _ ht _; exact ht
  | cons x f0 ih =>
    intro t hf ht hd
    simp only [contains2, Bool.or_eq_false_iff, Bool.and_eq_false_iff,
      decide_eq_false_iff_not] at hf
    have htail := ih t hf.2 ht hd
    simp only [List.cons_append, contains2, htail, Bool.or_false, List.append_eq]
    cases f0 with
    | nil =>
      simp only [List.nil_append, List.head?_cons]
      simp [hd]
    | cons y f1 =>
      simp only [List.cons_append, List.head?_cons]
      rcases hf.1 with h | h
      · simp [h]
      · simp only [List.head?_cons] at h
        simp [h]

/-- Joining delimiter-free role names with a comma stays delimiter-free
(the comma is neither codepoint of the delimiter). -/
theorem delimFree_joinWith_comma :
    ∀ rs : List Str, (∀ r ∈ rs, delimFree r) → delimFree (joinWith [','] rs) := by
  intro rs
  induction rs with
  | nil => intro _; decide
  | cons r rs0 ih =>
    intro hall
    cases rs0 with
    | nil =>
      rw [joinWith]
      exact hall r (by simp)
    | cons g rs1 =>
      rw [joinWith]
      have : r ++ [','] ++ joinWith [','] (g :: rs1)
          = r ++ ',' :: joinWith [','] (g :: rs1) := by
        simp
      rw [this]
      unfold delimFree at *
      refine contains2_append_mid snowChar vs16Char ',' r _ (hall r (by simp)) ?_ (by decide)
      have hrest := ih (fun x hx => hall x (by simp [hx]))
      simp only [contains2, hrest, Bool.or_false, Bool.and_eq_false_iff,
        decide_eq_false_iff_not]
      left
      decide

/-- Splitting `f ++ c :: rest` on `c` peels off the `c`-free prefix `f`. -/
theorem split1_sep_append (c : Char) :
    ∀ f rest : List Char, c ∉ f →
      split1 c (f ++ c :: rest) = f :: split1 c rest := by
  intro f
  induction f with
  | nil =>
    intro rest _
    simp [split1]
  | cons x f0 ih =>
    intro rest hc
    rw [List.cons_append, split1]
    rw [if_neg (by intro h; exact hc (by simp [h]))]
    rw [ih rest (fun h => hc (by simp [h]))]

/-- Splitting a separator-free string yields a single field. -/
theorem split1_no_sep (c : Char) :
    ∀ f : List Char, c ∉ f → split1 c f = [f] := by
  intro f
  induction f with
  | nil => simp [split1]
  | cons x f0 ih =>
    intro hc
    rw [split1]
    rw [if_neg (by intro h; exact hc (by simp [h]))]
    rw [ih (fun h => hc (by simp [h]))]

/-- Splitting on a separator is a left inverse of joining with it, for
separator-free fields. -/
theorem split1_joinWith (c : Char) :
    ∀ fs : List (List Char), fs ≠ [] → (∀ f ∈ fs, c ∉ f) →
      split1 c (joinWith [c] fs) = fs := by
  intro fs
  induction fs with
  | nil => intro h; exact absurd rfl h
  | cons f fs0 ih =>
    intro _ hall
    cases fs0 with
    | nil =>
      rw [joinWith]
      exact split1_no_sep c f (hall f (by simp))
    | cons g fs1 =>
      rw [joinWith]
      have : f ++ [c] ++ joinWith [c] (g :: fs1)
          = f ++ c :: joinWith [c] (g :: fs1) := by
        simp
      rw [this]
      rw [split1_sep_append c f _ (hall f (by simp))]
      rw [ih (by simp) (fun x hx => hall x (by simp [hx]))]

/-- Round trip for the role-list segment: comma-joining then splitting
via `SplitStringToSlice` restores the role list, for comma-free role
names, except when the list is exactly `[""]` (which joins to the empty
segment and decodes to `[]`). -/
theorem SplitStringToSlice_joinWith (rs : List Str)
    (hall : ∀ r ∈ rs, ',' ∉ r) (hne : rs ≠ [[]]) :
    SplitStringToSlice (joinWith [','] rs) ',' = rs := by
  cases rs with
  | nil => decide
  | cons r rs0 =>
    cases rs0 with
    | nil =>
      have hr : r ≠ [] := by
        intro h
        exact hne (by rw [h])
      rw [joinWith, SplitStringToSlice, if_neg hr]
      exact split1_no_sep ',' r (hall r (by simp))
    | cons g rs1 =>
      have hjoin : joinWith [','] (r :: g :: rs1)
          = r ++ ',' :: joinWith [','] (g :: rs1) := by
        rw [joinWith]; simp
      rw [hjoin, SplitStringToSlice, if_neg (by simp)]
      rw [split1_sep_append ',' r _ (hall r (by simp))]
      rw [split1_joinWith ',' (g :: rs1) (by simp)
        (fun x hx => hall x (by simp [hx]))]

/-- The rendered grant-option flag is delimiter-free. -/
theorem goBoolStr_delimFree (b : Bool) : delimFree (goBoolStr b) := by
  cases b <;> decide

/-- Comparing the rendered grant-option flag with `"true"` recovers the
flag. -/
theorem goBoolStr_true_iff (b : Bool) : decide (goBoolStr b = trueStr) = b := by
  cases b <;> decide

/-- Decoding a join of six delimiter-free segments succeeds and reads the
fields positionally; the fifth segment is compared with `"true"` and the
sixth is comma-split. -/
theorem parse_join6 (f1 f2 f3 f4 f5 f6 : Str)
    (h1 : delimFree f1) (h2 : delimFree f2) (h3 : delimFree f3)
    (h4 : delimFree f4) (h5 : delimFree f5) (h6 : delimFree f6) :
    parseStreamGrantID (joinWith [snowChar, vs16Char] [f1, f2, f3, f4, f5, f6]) =
      Except.ok
        { DatabaseName := f1, SchemaName := f2, ObjectName := f3,
          Privilege := f4, Roles := SplitStringToSlice f6 ',',
          WithGrantOption := decide (f5 = trueStr) } := by
  have hcont : contains2 snowChar vs16Char
      (joinWith [snowChar, vs16Char] [f1, f2, f3, f4, f5, f6]) = true :=
    contains2_joinWith_delim snowChar vs16Char f1 f2 [f3, f4, f5, f6]
  have hsplit : split2 snowChar vs16Char
      (joinWith [snowChar, vs16Char] [f1, f2, f3, f4, f5, f6])
      = [f1, f2, f3, f4, f5, f6] := by
    refine split2_joinWith snowChar vs16Char (by decide) _ (by simp) ?_
    intro f hf
    simp only [List.mem_cons, List.not_mem_nil, or_false] at hf
    rcases hf with rfl | rfl | rfl | rfl | rfl | rfl
    · exact h1
    · exact h2
    · exact h3
    · exact h4
    · exact h5
    · exact h6
  rw [parseStreamGrantID]
  rw [if_neg (by simp [hcont])]
  simp only [hsplit]
  rfl

/-- Round trip of the codec: decoding the encoding restores the
identifier, for delimiter-free fields, comma-free role names and a role
list other than `[""]`. -/
theorem parse_String_roundtrip (id : StreamGrantID)
    (hdb : delimFree id.DatabaseName) (hsc : delimFree id.SchemaName)
    (hob : delimFree id.ObjectName) (hpv : delimFree id.Privilege)
    (hroles : ∀ r ∈ id.Roles, delimFree r ∧ ',' ∉ r)
    (hone : id.Roles ≠ [[]]) :
    parseStreamGrantID id.String = Except.ok id := by
  obtain ⟨db, sc, ob, pv, rs, wgo⟩ := id
  simp only at hdb hsc hob hpv hroles hone
  show parseStreamGrantID (joinWith [snowChar, vs16Char]
      [db, sc, ob, pv, goBoolStr wgo, joinWith [','] rs]) =
    Except.ok ⟨db, sc, ob, pv, rs, wgo⟩
  rw [parse_join6 db sc ob pv (goBoolStr wgo) (joinWith [','] rs)
    hdb hsc hob hpv (goBoolStr_delimFree wgo)
    (delimFree_joinWith_comma rs (fun r hr => (hroles r hr).1))]
  rw [SplitStringToSlice_joinWith rs (fun r hr => (hroles r hr).2) hone]
  rw [goBoolStr_true_iff wgo]

/-- C1 (amended): for every GrantIdentifier whose five string fields are
free of the multi-byte delimiter, whose role names are free of the
delimiter and of `,`, and whose role list is not exactly `[""]`, decoding
the encoded string yields the identifier back in all six fields; in
particular an empty role list encodes to an empty role segment that
decodes to an empty list.  (The excluded single-empty-role case is the
counterexample to the claim as stated.) -/
theorem claim_C1 (id : StreamGrantID)
    (hdb : delimFree id.DatabaseName) (hsc : delimFree id.SchemaName)
    (hob : delimFree id.ObjectName) (hpv : delimFree id.Privilege)
    (hroles : ∀ r ∈ id.Roles, delimFree r ∧ ',' ∉ r)
    (hone : id.Roles ≠ [[]]) :
    parseStreamGrantID id.String = Except.ok id :=
  parse_String_roundtrip id hdb hsc hob hpv hroles hone

/-- C1 witness: a concrete identifier (future-grant shaped: empty object
name, two roles) round-trips through encode and decode. -/
theorem claim_C1_witness :
    parseStreamGrantID (StreamGrantID.String
      { DatabaseName := strLit "db", SchemaName := strLit "sc",
        ObjectName := strLit "", Privilege := strLit "SELECT",
        Roles := [strLit "r1", strLit "r2"], WithGrantOption := true }) =
      Except.ok
      { DatabaseName := strLit "db", SchemaName := strLit "sc",
        ObjectName := strLit "", Privilege := strLit "SELECT",
        Roles := [strLit "r1", strLit "r2"], WithGrantOption := true } :=
  claim_C1 _ (by decide) (by decide) (by decide) (by decide) (by decide)
    (by decide)

/-- C1 counterexample: the identifier whose role list is the single empty
role name `[""]` meets the claim's validity conditions (all fields
delimiter-free, role names comma-free) but does not round-trip: its role
segment encodes to the empty string, which decodes to the empty role
list. -/
theorem claim_C1_counterexample :
    parseStreamGrantID (StreamGrantID.String
      { DatabaseName := strLit "d", SchemaName := strLit "sc",
        ObjectName := strLit "ob", Privilege := strLit "SELECT",
        Roles := [strLit ""], WithGrantOption := false }) =
      Except.ok
      { DatabaseName := strLit "d", SchemaName := strLit "sc",
        ObjectName := strLit "ob", Privilege := strLit "SELECT",
        Roles := [], WithGrantOption := false } ∧
    ([strLit ""] : List Str) ≠ [] := by
  decide

/-- C2 (amended): on the legacy path (input free of the multi-byte
delimiter), an input with fewer than five pipe-delimited segments does
not produce a decode error: the unchecked indexing `idParts[1]` …
`idParts[4]` raises a Go runtime index-out-of-range panic (modelled by
`ParseErr.panicIndexOutOfRange`); with five or more segments the legacy
path always succeeds, so it never returns an error value at all. -/
theorem claim_C2 (s : Str) (hnd : contains2 snowChar vs16Char s = false) :
    ((split1 '|' s).length < 5 →
      parseStreamGrantID s = Except.error ParseErr.panicIndexOutOfRange) ∧
    (5 ≤ (split1 '|' s).length → ∃ id, parseStreamGrantID s = Except.ok id) := by
  constructor
  · intro h
    simp only [parseStreamGrantID]
    rw [if_pos hnd, if_pos h]
  · intro h
    simp only [parseStreamGrantID]
    rw [if_pos hnd, if_neg (by omega)]
    exact ⟨_, rfl⟩

/-- C2 witness: the two-segment legacy input `"a|b"` reaches the modelled
index-out-of-range panic. -/
theorem claim_C2_witness :
    parseStreamGrantID (strLit "a|b") =
      Except.error ParseErr.panicIndexOutOfRange :=
  (claim_C2 (strLit "a|b") (by decide)).1 (by decide)

/-- C2 counterexample: on the delimiter-free input `"abc"` (one segment),
`parseStreamGrantID` does not return a structured decode error — the Go
code indexes `idParts[1]` out of bounds and panics, which the embedding
records as the distinguished `panicIndexOutOfRange` outcome. -/
theorem claim_C2_counterexample :
    parseStreamGrantID (strLit "abc") =
      Except.error ParseErr.panicIndexOutOfRange := by
  decide

/-- C3: for every input containing the multi-byte delimiter, a split with
segment count different from six yields the MalformedIdentifier error
reporting the actual segment count (and no panic is possible on this
path), while exactly six segments always decode successfully. -/
theorem claim_C3 (s : Str) (hc : contains2 snowChar vs16Char s = true) :
    ((split2 snowChar vs16Char s).length ≠ 6 →
      parseStreamGrantID s = Except.error
        (ParseErr.malformedIdentifier (split2 snowChar vs16Char s).length)) ∧
    ((split2 snowChar vs16Char s).length = 6 →
      ∃ id, parseStreamGrantID s = Except.ok id) := by
  constructor
  · intro h
    simp only [parseStreamGrantID]
    rw [if_neg (by simp [hc]), if_pos h]
  · intro h
    simp only [parseStreamGrantID]
    rw [if_neg (by simp [hc]), if_neg (by omega)]
    exact ⟨_, rfl⟩

/-- C3 witness: the delimiter-containing input `"a❄️b"` splits into two
segments and fails with MalformedIdentifier reporting the count 2. -/
theorem claim_C3_witness :
    parseStreamGrantID (strLit "a❄️b") =
      Except.error (ParseErr.malformedIdentifier 2) :=
  (claim_C3 (strLit "a❄️b") (by decide)).1 (by decide)

/-- C4: every well-formed five-field pipe-delimited legacy string decodes
successfully to an identifier with an empty role list whose database,
schema, object, privilege and with-grant-option fields are read from the
five segments in that order (the fifth segment compared against
`"true"`). -/
theorem claim_C4 (s : Str) (hnd : contains2 snowChar vs16Char s = false)
    (h5 : (split1 '|' s).length = 5) :
    parseStreamGrantID s = Except.ok
      { DatabaseName := (split1 '|' s).getD 0 []
        SchemaName := (split1 '|' s).getD 1 []
        ObjectName := (split1 '|' s).getD 2 []
        Privilege := (split1 '|' s).getD 3 []
        Roles := []
        WithGrantOption := decide ((split1 '|' s).getD 4 [] = trueStr) } := by
  simp only [parseStreamGrantID]
  rw [if_pos hnd, if_neg (by omega)]

/-- C4 witness: the concrete legacy string `"db|sc|ob|SELECT|true"`
decodes to the expected identifier with an empty role list. -/
theorem claim_C4_witness :
    parseStreamGrantID (strLit "db|sc|ob|SELECT|true") = Except.ok
      { DatabaseName := strLit "db", SchemaName := strLit "sc",
        ObjectName := strLit "ob", Privilege := strLit "SELECT",
        Roles := [], WithGrantOption := true } :=
  claim_C4 (strLit "db|sc|ob|SELECT|true") (by decide) (by decide)

/-- C8 (amended): decoding never fails because of the with-grant-option
segment: for any six delimiter-free segments the decode succeeds, and the
fifth segment is mapped to `true` exactly when it equals `"true"` — every
other string (parseable boolean or not) is silently mapped to `false`. -/
theorem claim_C8 (a b c d w r : Str)
    (ha : delimFree a) (hb : delimFree b) (hc : delimFree c)
    (hd : delimFree d) (hw : delimFree w) (hr : delimFree r) :
    parseStreamGrantID (joinWith [snowChar, vs16Char] [a, b, c, d, w, r]) =
      Except.ok
        { DatabaseName := a, SchemaName := b, ObjectName := c,
          Privilege := d, Roles := SplitStringToSlice r ',',
          WithGrantOption := decide (w = trueStr) } :=
  parse_join6 a b c d w r ha hb hc hd hw hr

/-- C8 witness: a concrete encoded identifier whose fifth segment is
`"no"` decodes successfully with the flag mapped to false. -/
theorem claim_C8_witness :
    parseStreamGrantID
      (strLit "db❄️sc❄️ob❄️SELECT❄️no❄️r1,r2") =
      Except.ok
      { DatabaseName := strLit "db", SchemaName := strLit "sc",
        ObjectName := strLit "ob", Privilege := strLit "SELECT",
        Roles := [strLit "r1", strLit "r2"], WithGrantOption := false } :=
  claim_C8 (strLit "db") (strLit "sc") (strLit "ob") (strLit "SELECT")
    (strLit "no") (strLit "r1,r2")
    (by decide) (by decide) (by decide) (by decide) (by decide) (by decide)

/-- C8 counterexample: the with-grant-option segment `"banana"` is not a
parseable boolean, yet decoding does not fail with MalformedIdentifier —
it succeeds and silently maps the segment to `false`. -/
theorem claim_C8_counterexample :
    parseStreamGrantID
      (strLit "db❄️sc❄️ob❄️SELECT❄️banana❄️r1") =
      Except.ok
      { DatabaseName := strLit "db", SchemaName := strLit "sc",
        ObjectName := strLit "ob", Privilege := strLit "SELECT",
        Roles := [strLit "r1"], WithGrantOption := false } := by
  decide

/-- C10: the encoding is not injective on role lists: the identifier
whose single role is the comma-containing name `"a,b"` and the distinct
identifier whose roles are `["a", "b"]` encode to the same string, and
decoding that string yields the comma-split form — so the round trip
changes the role set of the comma-containing identifier. -/
theorem claim_C10 :
    StreamGrantID.String
      { DatabaseName := strLit "db", SchemaName := strLit "sc",
        ObjectName := strLit "ob", Privilege := strLit "SELECT",
        Roles := [strLit "a,b"], WithGrantOption := false } =
    StreamGrantID.String
      { DatabaseName := strLit "db", SchemaName := strLit "sc",
        ObjectName := strLit "ob", Privilege := strLit "SELECT",
        Roles := [strLit "a", strLit "b"], WithGrantOption := false } ∧
    ({ DatabaseName := strLit "db", SchemaName := strLit "sc",
       ObjectName := strLit "ob", Privilege := strLit "SELECT",
       Roles := [strLit "a,b"], WithGrantOption := false } : StreamGrantID) ≠
    { DatabaseName := strLit "db", SchemaName := strLit "sc",
      ObjectName := strLit "ob", Privilege := strLit "SELECT",
      Roles := [strLit "a", strLit "b"], WithGrantOption := false } ∧
    parseStreamGrantID (StreamGrantID.String
      { DatabaseName := strLit "db", SchemaName := strLit "sc",
        ObjectName := strLit "ob", Privilege := strLit "SELECT",
        Roles := [strLit "a,b"], WithGrantOption := false }) =
      Except.ok
      { DatabaseName := strLit "db", SchemaName := strLit "sc",
        ObjectName := strLit "ob", Privilege := strLit "SELECT",
        Roles := [strLit "a", strLit "b"], WithGrantOption := false } := by
  refine ⟨by decide, by decide, by decide⟩

/-- Modelled from the spec: the SQL grant builders
`snowflake.StreamGrant(db, schema, stream)` and
`snowflake.FutureStreamGrant(db, schema)` are called from
stream_grant.go but their bodies are not among the provided sources.  Per
spec section 4.2 the builder is a tagged union with a specific-object
variant and a future-objects variant. -/
inductive GrantBuilder where
  | futureStream (db schema : Str)
  | stream (db schema name : Str)
  deriving DecidableEq

/-- Modelled from the spec: the SQL statements the lifecycle issues
through a builder — Grant, Revoke and the Show reconciliation query (spec
section 4.2's builder contract).  Statements are kept abstract; only
their identity and order matter to the claims. -/
inductive SqlStmt where
  | grantStmt (b : GrantBuilder) (priv role : Str) (withGrantOption : Bool)
  | revokeStmt (b : GrantBuilder) (priv role : Str)
  | showStmt (b : GrantBuilder)
  deriving DecidableEq

/-- Error taxonomy of the lifecycle entry points (spec section 7):
`validation` models the `errors.New(...)` returns of the create-time
field validation, `parseFailure` wraps a decode outcome, and `driver`
models a SQL execution failure wrapped with the failing statement's
context. -/
inductive LifecycleErr where
  | validation (msg : Str)
  | parseFailure (e : ParseErr)
  | driver (stmt : SqlStmt)
  deriving DecidableEq

/-- Modelled from the spec: the driver's answer to a Show query —
`notFound` is the distinguished no-rows condition (`sql.ErrNoRows`),
`found` is any non-empty row set. -/
inductive ShowResp where
  | notFound
  | found
  deriving DecidableEq

/-- Runs statements in order until the first driver failure, returning
the error wrapped with the failing statement and the list of statements
actually issued (spec section 7: "driver errors during multi-role loops
abort remaining iterations and return the first error"). -/
def execAll (exec : SqlStmt → Bool) :
    List SqlStmt → Except LifecycleErr Unit × List SqlStmt
  | [] => (Except.ok (), [])
  | s :: rest =>
    if exec s then
      let r := execAll exec rest
      (r.1, s :: r.2)
    else
      (Except.error (LifecycleErr.driver s), [s])

/-- Modelled from the spec: `createGenericGrant` is called from
`CreateStreamGrant` (line 123) but its body is not among the provided
sources.  Per spec section 4.3 Create: "for each declared role, execute a
Grant statement; on any execution failure, surface the SQL driver error
... do not attempt partial rollback of already-granted roles". -/
def createGenericGrant (exec : SqlStmt → Bool) (b : GrantBuilder)
    (priv : Str) (wgo : Bool) (roles : List Str) :
    Except LifecycleErr Unit × List SqlStmt :=
  execAll exec (roles.map (fun r => SqlStmt.grantStmt b priv r wgo))

/-- Modelled from the spec: `createGenericGrantRolesAndShares` (called at
line 232) issues one Grant per listed role, aborting on the first driver
failure. -/
def createGenericGrantRolesAndShares (exec : SqlStmt → Bool)
    (b : GrantBuilder) (priv : Str) (wgo : Bool) (roles : List Str) :
    Except LifecycleErr Unit × List SqlStmt :=
  execAll exec (roles.map (fun r => SqlStmt.grantStmt b priv r wgo))

/-- Modelled from the spec: `deleteGenericGrantRolesAndShares` (called at
line 226) issues one Revoke per listed role, aborting on the first driver
failure. -/
def deleteGenericGrantRolesAndShares (exec : SqlStmt → Bool)
    (b : GrantBuilder) (priv : Str) (roles : List Str) :
    Except LifecycleErr Unit × List SqlStmt :=
  execAll exec (roles.map (fun r => SqlStmt.revokeStmt b priv r))

/-- Builder dispatch on a decoded identifier, as done identically in
Read, Delete and Update (stream_grant.go lines 147-150 with 168-173,
185-192, 216-223): an empty object name selects the future-streams
variant, otherwise the specific-stream variant. -/
def streamGrantBuilder (gid : StreamGrantID) : GrantBuilder :=
  if gid.ObjectName = [] then
    GrantBuilder.futureStream gid.DatabaseName gid.SchemaName
  else
    GrantBuilder.stream gid.DatabaseName gid.SchemaName gid.ObjectName

/-- Modelled from the spec: `readGenericGrant` is called from
`ReadStreamGrant` (line 175) but its body is not among the provided
sources.  Per spec section 4.3 Read: issue the builder's Show query; "if
the target object no longer exists (driver reports no rows/not-found),
clear all resource state (treat as deleted) without raising an error".
The returned `none` models cleared (empty) tracked state; `some gid`
models the populated state with the identifier's fields. -/
def readGenericGrant (showResp : GrantBuilder → ShowResp) (b : GrantBuilder)
    (gid : StreamGrantID) :
    Except LifecycleErr (Option StreamGrantID) × List SqlStmt :=
  (Except.ok (if showResp b = ShowResp.notFound then none else some gid),
   [SqlStmt.showStmt b])

/-- Read entry point, from `func ReadStreamGrant` (stream_grant.go lines
134-176): decode the stored identifier (returning its error on failure),
populate the fields, dispatch the builder on whether the object name is
empty, and delegate to the generic read.  `showResp` abstracts the SQL
driver's answer to the Show query; the statement trace is the second
component. -/
def ReadStreamGrant (showResp : GrantBuilder → ShowResp) (idStr : Str) :
    Except LifecycleErr (Option StreamGrantID) × List SqlStmt :=
  match parseStreamGrantID idStr with
  | Except.error e => (Except.error (LifecycleErr.parseFailure e), [])
  | Except.ok gid => readGenericGrant showResp (streamGrantBuilder gid) gid

/-- The desired-state record read by `CreateStreamGrant` from the host
runtime's field accessors (stream_grant.go lines 95-104). -/
structure StreamGrantInput where
  streamName : Str
  databaseName : Str
  schemaName : Str
  privilege : Str
  onFuture : Bool
  withGrantOption : Bool
  roles : List Str
  deriving DecidableEq

/-- Outcome of a successful Create: the identifier string persisted by
`d.SetId(grantID.String())` (line 128) and the state produced by the
final Read (line 130). -/
structure CreateResult where
  persistedId : Str
  readState : Option StreamGrantID
  deriving DecidableEq

/-- Create entry point, from `func CreateStreamGrant` (stream_grant.go
lines 94-131): three mutually-exclusive-field validations in order
(lines 106-114), builder dispatch on the on-future flag (lines 116-121),
the generic grant issuing one Grant per role (line 123), persisting the
encoded identifier (lines 127-128), and a final Read (line 130). -/
def CreateStreamGrant (exec : SqlStmt → Bool)
    (showResp : GrantBuilder → ShowResp) (i : StreamGrantInput) :
    Except LifecycleErr CreateResult × List SqlStmt :=
  if i.streamName.isEmpty && !i.onFuture then
    (Except.error (LifecycleErr.validation
      (strLit "stream_name must be set unless on_future is true")), [])
  else if !i.streamName.isEmpty && i.onFuture then
    (Except.error (LifecycleErr.validation
      (strLit "stream_name must be empty if on_future is true")), [])
  else if i.schemaName.isEmpty && !i.onFuture then
    (Except.error (LifecycleErr.validation
      (strLit "schema_name must be set unless on_future is true")), [])
  else
    match createGenericGrant exec
        (if i.onFuture then
          GrantBuilder.futureStream i.databaseName i.schemaName
        else
          GrantBuilder.stream i.databaseName i.schemaName i.streamName)
        i.privilege i.withGrantOption i.roles with
    | (Except.error e, t) => (Except.error e, t)
    | (Except.ok _, t) =>
      match ReadStreamGrant showResp (NewStreamGrantID i.databaseName
          i.schemaName i.streamName i.privilege i.roles
          i.withGrantOption).String with
      | (Except.error e, t2) => (Except.error e, t ++ t2)
      | (Except.ok st, t2) =>
        (Except.ok
          { persistedId := (NewStreamGrantID i.databaseName i.schemaName
              i.streamName i.privilege i.roles i.withGrantOption).String,
            readState := st }, t ++ t2)

/-- Modelled from the spec: the host runtime's change detection
(`d.HasChanges("roles")`) compares the previous and desired values of the
set-typed `roles` field, i.e. equality as sets. -/
def rolesSetEq (a b : List Str) : Bool :=
  a.all (fun r => b.contains r) && b.all (fun r => a.contains r)

/-- Modelled from the spec: `changeDiff(d, "roles")` (called at line 208)
is not among the provided sources.  Per spec section 4.3 Update: "toAdd =
desired − previous, toRevoke = previous − desired". -/
def changeDiff (previous desired : List Str) : List Str × List Str :=
  (desired.filter (fun r => !(previous.contains r)),
   previous.filter (fun r => !(desired.contains r)))

/-- Update entry point, from `func UpdateStreamGrant` (stream_grant.go
lines 197-240): return nil immediately when the roles field has not
changed (lines 200-202); otherwise compute the role diff, decode the
identifier, dispatch the builder, revoke first (lines 226-230), then
grant (lines 232-236), then refresh state via Read (line 239). -/
def UpdateStreamGrant (exec : SqlStmt → Bool)
    (showResp : GrantBuilder → ShowResp)
    (previousRoles desiredRoles : List Str) (idStr : Str) :
    Except LifecycleErr Unit × List SqlStmt :=
  if rolesSetEq previousRoles desiredRoles then
    (Except.ok (), [])
  else
    match parseStreamGrantID idStr with
    | Except.error e => (Except.error (LifecycleErr.parseFailure e), [])
    | Except.ok gid =>
      match deleteGenericGrantRolesAndShares exec (streamGrantBuilder gid)
          gid.Privilege (changeDiff previousRoles desiredRoles).2 with
      | (Except.error e, t1) => (Except.error e, t1)
      | (Except.ok _, t1) =>
        match createGenericGrantRolesAndShares exec (streamGrantBuilder gid)
            gid.Privilege gid.WithGrantOption
            (changeDiff previousRoles desiredRoles).1 with
        | (Except.error e, t2) => (Except.error e, t1 ++ t2)
        | (Except.ok _, t2) =>
          match ReadStreamGrant showResp idStr with
          | (Except.error e, t3) => (Except.error e, t1 ++ t2 ++ t3)
          | (Except.ok _, t3) => (Except.ok (), t1 ++ t2 ++ t3)

/-- The disjunction of the three create-time validation conditions
(stream_grant.go lines 106-114), in the order the code tests them. -/
def createValidationFails (i : StreamGrantInput) : Bool :=
  (i.streamName.isEmpty && !i.onFuture) ||
  (!i.streamName.isEmpty && i.onFuture) ||
  (i.schemaName.isEmpty && !i.onFuture)

/-- Under an always-succeeding driver, `execAll` succeeds and issues
exactly the given statements in order. -/
theorem execAll_true :
    ∀ l : List SqlStmt, execAll (fun _ => true) l = (Except.ok (), l) := by
  intro l
  induction l with
  | nil => rfl
  | cons s rest ih => simp [execAll, ih]

/-- Statement execution can only fail with a driver error, never a
validation error. -/
theorem execAll_ne_validation (exec : SqlStmt → Bool) :
    ∀ (l : List SqlStmt) (msg : Str),
      (execAll exec l).1 ≠ Except.error (LifecycleErr.validation msg) := by
  intro l
  induction l with
  | nil => intro msg h; exact Except.noConfusion h
  | cons s rest ih =>
    intro msg
    rw [execAll]
    cases hs : exec s with
    | true => simpa [hs] using ih msg
    | false => simp [hs]

/-- The generic grant creation can only fail with a driver error. -/
theorem createGenericGrant_ne_validation (exec : SqlStmt → Bool)
    (b : GrantBuilder) (priv : Str) (wgo : Bool) (roles : List Str)
    (msg : Str) :
    (createGenericGrant exec b priv wgo roles).1 ≠
      Except.error (LifecycleErr.validation msg) :=
  execAll_ne_validation exec _ msg

/-- The Read entry point never returns a validation error: its failures
are decode failures, and the generic read itself always succeeds. -/
theorem ReadStreamGrant_ne_validation (showResp : GrantBuilder → ShowResp)
    (idStr : Str) (msg : Str) :
    (ReadStreamGrant showResp idStr).1 ≠
      Except.error (LifecycleErr.validation msg) := by
  rw [ReadStreamGrant]
  cases parseStreamGrantID idStr with
  | error e => simp
  | ok gid => simp [readGenericGrant]

/-- Set equality of role lists is reflexive. -/
theorem rolesSetEq_refl (rs : List Str) : rolesSetEq rs rs = true := by
  rw [rolesSetEq, Bool.and_self, List.all_eq_true]
  intro r hr
  exact List.elem_eq_true_of_mem hr

/-- C5: CreateStreamGrant returns a validation error, with no SQL
statement issued, exactly when one of the three conditions holds
(stream_name empty with on_future false; stream_name non-empty with
on_future true; schema_name empty with on_future false); when none
holds, whatever else happens, the result is never a validation error. -/
theorem claim_C5 (exec : SqlStmt → Bool) (showResp : GrantBuilder → ShowResp)
    (i : StreamGrantInput) :
    (createValidationFails i = true →
      (∃ msg, (CreateStreamGrant exec showResp i).1 =
        Except.error (LifecycleErr.validation msg)) ∧
      (CreateStreamGrant exec showResp i).2 = []) ∧
    (createValidationFails i = false →
      ∀ msg, (CreateStreamGrant exec showResp i).1 ≠
        Except.error (LifecycleErr.validation msg)) := by
  constructor
  · intro hv
    rw [createValidationFails] at hv
    cases h1 : (i.streamName.isEmpty && !i.onFuture) with
    | true =>
      rw [CreateStreamGrant, if_pos h1]
      exact ⟨⟨_, rfl⟩, rfl⟩
    | false =>
      cases h2 : (!i.streamName.isEmpty && i.onFuture) with
      | true =>
        rw [CreateStreamGrant, if_neg (by simp [h1]), if_pos h2]
        exact ⟨⟨_, rfl⟩, rfl⟩
      | false =>
        cases h3 : (i.schemaName.isEmpty && !i.onFuture) with
        | true =>
          rw [CreateStreamGrant, if_neg (by simp [h1]), if_neg (by simp [h2]),
            if_pos h3]
          exact ⟨⟨_, rfl⟩, rfl⟩
        | false =>
          rw [h1, h2, h3] at hv
          simp at hv
  · intro hv msg
    rw [createValidationFails, Bool.or_eq_false_iff, Bool.or_eq_false_iff] at hv
    obtain ⟨⟨h1, h2⟩, h3⟩ := hv
    rw [CreateStreamGrant, if_neg (by simp [h1]), if_neg (by simp [h2]),
      if_neg (by simp [h3])]
    split
    · next e t heq =>
      intro hcontra
      have hc2 : Except.error e =
          Except.error (LifecycleErr.validation msg) := hcontra
      injection hc2 with he
      subst he
      exact createGenericGrant_ne_validation exec _ i.privilege
        i.withGrantOption i.roles msg (congrArg Prod.fst heq)
    · next u t heq =>
      split
      · next e2 t2 heq2 =>
        intro hcontra
        have hc2 : Except.error e2 =
            Except.error (LifecycleErr.validation msg) := hcontra
        injection hc2 with he
        subst he
        exact ReadStreamGrant_ne_validation showResp _ msg
          (congrArg Prod.fst heq2)
      · next st t2 heq2 => simp

/-- C5 witness: with an empty stream name and on_future false, Create
fails validation with no SQL issued. -/
theorem claim_C5_witness :
    (∃ msg, (CreateStreamGrant (fun _ => true) (fun _ => ShowResp.found)
      { streamName := strLit "", databaseName := strLit "d",
        schemaName := strLit "sc", privilege := strLit "SELECT",
        onFuture := false, withGrantOption := false,
        roles := [strLit "r"] }).1 =
      Except.error (LifecycleErr.validation msg)) ∧
    (CreateStreamGrant (fun _ => true) (fun _ => ShowResp.found)
      { streamName := strLit "", databaseName := strLit "d",
        schemaName := strLit "sc", privilege := strLit "SELECT",
        onFuture := false, withGrantOption := false,
        roles := [strLit "r"] }).2 = [] :=
  (claim_C5 (fun _ => true) (fun _ => ShowResp.found)
    { streamName := strLit "", databaseName := strLit "d",
      schemaName := strLit "sc", privilege := strLit "SELECT",
      onFuture := false, withGrantOption := false,
      roles := [strLit "r"] }).1 (by decide)

/-- C6: Update is a no-op issuing no SQL and returning nil when the role
set has not changed; when it has changed and the identifier decodes, the
successful trace is exactly the revokes of previous−desired, followed by
the grants of desired−previous, followed by the final Read's Show query —
all revokes before any grants; and re-applying Update when the tracked
roles already equal the desired set issues no SQL. -/
theorem claim_C6 (exec : SqlStmt → Bool) (showResp : GrantBuilder → ShowResp)
    (previousRoles desiredRoles : List Str) (idStr : Str) :
    (rolesSetEq previousRoles desiredRoles = true →
      UpdateStreamGrant exec showResp previousRoles desiredRoles idStr =
        (Except.ok (), [])) ∧
    (∀ gid : StreamGrantID,
      rolesSetEq previousRoles desiredRoles = false →
      parseStreamGrantID idStr = Except.ok gid →
      UpdateStreamGrant (fun _ => true) showResp previousRoles desiredRoles
        idStr =
        (Except.ok (),
         (previousRoles.filter
            (fun r => !(desiredRoles.contains r))).map
           (fun r => SqlStmt.revokeStmt (streamGrantBuilder gid)
             gid.Privilege r) ++
         (desiredRoles.filter
            (fun r => !(previousRoles.contains r))).map
           (fun r => SqlStmt.grantStmt (streamGrantBuilder gid)
             gid.Privilege r gid.WithGrantOption) ++
         [SqlStmt.showStmt (streamGrantBuilder gid)])) ∧
    UpdateStreamGrant exec showResp desiredRoles desiredRoles idStr =
      (Except.ok (), []) := by
  refine ⟨?_, ?_, ?_⟩
  · intro h
    rw [UpdateStreamGrant, if_pos h]
  · intro gid hne hp
    rw [UpdateStreamGrant, if_neg (by simp [hne])]
    simp only [hp, changeDiff, deleteGenericGrantRolesAndShares,
      createGenericGrantRolesAndShares, execAll_true, ReadStreamGrant,
      readGenericGrant]
  · rw [UpdateStreamGrant, if_pos (rolesSetEq_refl desiredRoles)]

/-- C6 witness: previous roles {A,B} and desired roles {B,C} revoke
exactly A, then grant exactly C, then issue the Show refresh. -/
theorem claim_C6_witness :
    UpdateStreamGrant (fun _ => true) (fun _ => ShowResp.found)
      [strLit "A", strLit "B"] [strLit "B", strLit "C"]
      (strLit "d❄️sc❄️ob❄️SELECT❄️true❄️A,B") =
      (Except.ok (),
       [SqlStmt.revokeStmt
          (GrantBuilder.stream (strLit "d") (strLit "sc") (strLit "ob"))
          (strLit "SELECT") (strLit "A"),
        SqlStmt.grantStmt
          (GrantBuilder.stream (strLit "d") (strLit "sc") (strLit "ob"))
          (strLit "SELECT") (strLit "C") true,
        SqlStmt.showStmt
          (GrantBuilder.stream (strLit "d") (strLit "sc") (strLit "ob"))]) :=
  (claim_C6 (fun _ => true) (fun _ => ShowResp.found)
    [strLit "A", strLit "B"] [strLit "B", strLit "C"]
    (strLit "d❄️sc❄️ob❄️SELECT❄️true❄️A,B")).2.1
    { DatabaseName := strLit "d", SchemaName := strLit "sc",
      ObjectName := strLit "ob", Privilege := strLit "SELECT",
      Roles := [strLit "A", strLit "B"], WithGrantOption := true }
    (by decide) (by decide)

/-- C7: whenever the stored identifier decodes and the driver reports the
distinguished not-found condition for the Show query, the Read entry
point returns nil with empty tracked state (modelled as `none`), issuing
only the Show query. -/
theorem claim_C7 (showResp : GrantBuilder → ShowResp) (idStr : Str)
    (gid : StreamGrantID)
    (hparse : parseStreamGrantID idStr = Except.ok gid)
    (hnf : showResp (streamGrantBuilder gid) = ShowResp.notFound) :
    ReadStreamGrant showResp idStr =
      (Except.ok none, [SqlStmt.showStmt (streamGrantBuilder gid)]) := by
  rw [ReadStreamGrant, hparse]
  simp [readGenericGrant, hnf]

/-- C7 witness: a concrete decodable identifier whose Show query reports
not-found reads back as cleared state with no error. -/
theorem claim_C7_witness :
    ReadStreamGrant (fun _ => ShowResp.notFound)
      (strLit "d❄️sc❄️ob❄️SELECT❄️true❄️r") =
      (Except.ok none,
       [SqlStmt.showStmt
          (GrantBuilder.stream (strLit "d") (strLit "sc") (strLit "ob"))]) :=
  claim_C7 (fun _ => ShowResp.notFound)
    (strLit "d❄️sc❄️ob❄️SELECT❄️true❄️r")
    { DatabaseName := strLit "d", SchemaName := strLit "sc",
      ObjectName := strLit "ob", Privilege := strLit "SELECT",
      Roles := [strLit "r"], WithGrantOption := true }
    (by decide) (by decide)

/-- C9 (amended): CreateStreamGrant performs no non-emptiness check on
the declared role set.  With an empty role set and fields passing the
three validations (and delimiter-free, so the final Read can decode),
Create succeeds: it issues no Grant statement at all (only the final
Read's Show query) and persists the encoded identifier whose role set is
empty. -/
theorem claim_C9 (exec : SqlStmt → Bool) (showResp : GrantBuilder → ShowResp)
    (i : StreamGrantInput)
    (hval : createValidationFails i = false)
    (hroles : i.roles = [])
    (hdb : delimFree i.databaseName) (hsc : delimFree i.schemaName)
    (hsn : delimFree i.streamName) (hpv : delimFree i.privilege) :
    ∃ st, CreateStreamGrant exec showResp i =
      (Except.ok
        { persistedId := (NewStreamGrantID i.databaseName i.schemaName
            i.streamName i.privilege [] i.withGrantOption).String,
          readState := st },
       [SqlStmt.showStmt (streamGrantBuilder (NewStreamGrantID
          i.databaseName i.schemaName i.streamName i.privilege []
          i.withGrantOption))]) ∧
      (st = none ∨ st = some (NewStreamGrantID i.databaseName i.schemaName
        i.streamName i.privilege [] i.withGrantOption)) := by
  rw [createValidationFails, Bool.or_eq_false_iff, Bool.or_eq_false_iff] at hval
  obtain ⟨⟨h1, h2⟩, h3⟩ := hval
  have hparse : parseStreamGrantID (NewStreamGrantID i.databaseName
      i.schemaName i.streamName i.privilege [] i.withGrantOption).String =
      Except.ok (NewStreamGrantID i.databaseName i.schemaName i.streamName
        i.privilege [] i.withGrantOption) := by
    refine parse_String_roundtrip _ hdb hsc hsn hpv ?_ ?_
    · intro r hr
      exact absurd hr (List.not_mem_nil r)
    · simp [NewStreamGrantID]
  rw [CreateStreamGrant, if_neg (by simp [h1]), if_neg (by simp [h2]),
    if_neg (by simp [h3])]
  simp only [hroles, createGenericGrant, List.map_nil, execAll,
    ReadStreamGrant, hparse, readGenericGrant]
  cases hv : showResp (streamGrantBuilder (NewStreamGrantID i.databaseName
      i.schemaName i.streamName i.privilege [] i.withGrantOption)) with
  | notFound =>
    exact ⟨none, by simp [hv], Or.inl rfl⟩
  | found =>
    exact ⟨some _, by simp [hv], Or.inr rfl⟩

/-- C9 witness: a concrete valid input with an empty role set creates
successfully, issuing only the Show query, and the persisted identifier
decodes to an empty role set. -/
theorem claim_C9_witness :
    ∃ st, CreateStreamGrant (fun _ => true) (fun _ => ShowResp.found)
      { streamName := strLit "s", databaseName := strLit "d",
        schemaName := strLit "sc", privilege := strLit "SELECT",
        onFuture := false, withGrantOption := false, roles := [] } =
      (Except.ok
        { persistedId := (NewStreamGrantID (strLit "d") (strLit "sc")
            (strLit "s") (strLit "SELECT") [] false).String,
          readState := st },
       [SqlStmt.showStmt (streamGrantBuilder (NewStreamGrantID (strLit "d")
          (strLit "sc") (strLit "s") (strLit "SELECT") [] false))]) ∧
      (st = none ∨ st = some (NewStreamGrantID (strLit "d") (strLit "sc")
        (strLit "s") (strLit "SELECT") [] false)) :=
  claim_C9 (fun _ => true) (fun _ => ShowResp.found)
    { streamName := strLit "s", databaseName := strLit "d",
      schemaName := strLit "sc", privilege := strLit "SELECT",
      onFuture := false, withGrantOption := false, roles := [] }
    (by decide) rfl (by decide) (by decide) (by decide) (by decide)

/-- C9 counterexample: with an empty declared role set and otherwise
valid fields, CreateStreamGrant does proceed and persist an identifier —
the concrete run succeeds, issues only the Show query (no grants), sets
the identifier `"d❄️sc❄️s❄️SELECT❄️false❄️"`, and that identifier decodes
to an empty role set, contradicting the claim that Create does not
proceed in this case. -/
theorem claim_C9_counterexample :
    CreateStreamGrant (fun _ => true) (fun _ => ShowResp.found)
      { streamName := strLit "s", databaseName := strLit "d",
        schemaName := strLit "sc", privilege := strLit "SELECT",
        onFuture := false, withGrantOption := false, roles := [] } =
      (Except.ok
        { persistedId := strLit "d❄️sc❄️s❄️SELECT❄️false❄️",
          readState := some
            { DatabaseName := strLit "d", SchemaName := strLit "sc",
              ObjectName := strLit "s", Privilege := strLit "SELECT",
              Roles := [], WithGrantOption := false } },
       [SqlStmt.showStmt
          (GrantBuilder.stream (strLit "d") (strLit "sc") (strLit "s"))]) ∧
    parseStreamGrantID (strLit "d❄️sc❄️s❄️SELECT❄️false❄️") =
      Except.ok
      { DatabaseName := strLit "d", SchemaName := strLit "sc",
        ObjectName := strLit "s", Privilege := strLit "SELECT",
        Roles := [], WithGrantOption := false } := by
  refine ⟨by decide, by decide⟩

end StreamGrantSpec
